import Mathlib

/-!
beancount `parser.c`: the Python extension module around the lexer and the grammar.

A shallow embedding of `src/python/beancount/parser/parser.c`.

The C globals (`builder`, `yyin`, `yy_filename`, `yy_firstline`, `yydebug`), the
scanner's buffers, the set of open `FILE` streams and the reference counts of
Python objects are gathered in one record, `Globals`, which every module function
takes and returns.  A `PyObject*` return value is a `PyResult`; a `NULL` return
with a pending exception is `PyResult.raise`.

What the module calls but does not define (`fopen`'s file system, `yyparse`,
`yylex`, `getTokenName`, the token codes of the grammar header) is a parameter,
collected in `Env`; `yylex_destroy` and, where a claim is about the tokenizer
itself, `yylex` are modelled from the specification.

Conventions of the embedding:
* it starts where argument unpacking has succeeded: the arguments are already
  typed (`ParseArgs`);
* the content of a file is the list of lexical units the tokenizer's rules cut it
  into, and a stream remembers which of them are still unread;
* reference counts are tracked for the objects the module is handed; the count of
  `None` is not.
-/

namespace Beancount

/-! ## Data model -/

/-- Identity (address) of a Python object. -/
abbrev PyObject := Nat

/-- One lexical unit of an input file, as the tokenizer's rules cut it: the token
code the grammar knows it by (never 0, which is reserved for end of input), its
matched text, the physical line it starts on and its decoded value. -/
structure Lexeme where
  code : Int
  nonzero : code ≠ 0
  text : List UInt8
  line : Int
  value : PyObject

/-- An open `FILE` stream: the handle's identity, the path it was opened on and
what has not been read from it yet. -/
structure FILE where
  id : Nat
  path : String
  unread : List Lexeme

/-- The scanner's own state: whether its read buffers are allocated, and the
`yytext` / `yyleng` / `yylineno` it exposes. -/
structure Scanner where
  buffers : Bool
  yytext : List UInt8
  yyleng : Nat
  yylineno : Int

/-- The process state the module works on.  `builder`, `yyin`, `yy_filename`,
`yy_firstline` and `yydebug` are the C globals of the same names (`none` is the
null pointer, `yyin` holds the identity of a stream); `openFiles` are the streams
that are open; `refcnt` is the reference count of each Python object. -/
structure Globals where
  builder : Option PyObject
  yyin : Option Nat
  yy_filename : Option String
  yy_firstline : Int
  yydebug : Bool
  scanner : Scanner
  openFiles : List FILE
  refcnt : PyObject → Int

/-- What `yylex(&yylval, &yylloc)` hands back: the token code (0 at end of
input), `yylval.pyobj` and `yylloc.first_line`. -/
structure LexOut where
  token : Int
  pyobj : PyObject
  first_line : Int

/-- Everything `parser.c` uses and does not define. -/
structure Env where
  /-- The file system as `fopen(path, "r")` finds it: `none` when the path
  cannot be opened, else the content of the file. -/
  contents : String → Option (List Lexeme)
  /-- The grammar driver generated from `grammar.y`; returns its status. -/
  yyparse : Globals → Int × Globals
  /-- The tokenizer generated from `lexer.l`. -/
  yylex : Globals → LexOut × Globals
  /-- Name of a token code (`getTokenName`). -/
  getTokenName : Int → String
  DATE : Int
  ACCOUNT : Int
  CURRENCY : Int
  STRING : Int
  NUMBER : Int
  TAG : Int
  LINK : Int

/-- The exception types the module raises. -/
inductive PyExc where
  | IOError
  | RuntimeError
deriving DecidableEq, Repr

/-- The value a module function returns to Python: `None`, a pending exception
(the C function returned `NULL`), or the tuple built by `lexer_next`. -/
inductive PyResult where
  | None
  | raise (exc : PyExc) (msg : String)
  | token (name : String) (line : Int) (text : List UInt8) (literal : Option PyObject)
deriving DecidableEq

/-- The arguments of `parse` once unpacked by the format `"sO|sip"`: two
required ones, three optional ones. -/
structure ParseArgs where
  filename : String
  builder : PyObject
  report_filename : Option String
  report_firstline : Option Int
  yydebug : Option Bool

/-- One invocation of the grammar driver: the globals it was started on and the
status it returned. -/
structure DriverCall where
  seen : Globals
  status : Int

/-- Result of one `parse` call: the value returned to Python, the globals it
leaves, and the invocation of the grammar driver it made, if any. -/
structure ParseOutcome where
  result : PyResult
  globals : Globals
  driver : Option DriverCall

/-! ## C library and CPython primitives -/

/-- A stream identity that no open stream has. -/
def freshId (fs : List FILE) : Nat :=
  (fs.map FILE.id).foldr max 0 + 1

/-- `fopen(path, "r")`: `NULL` when the path cannot be opened, else a new stream
positioned at the start of the file. -/
def fopen (E : Env) (g : Globals) (path : String) : Option Nat × Globals :=
  match E.contents path with
  | none => (none, g)
  | some ls =>
    (some (freshId g.openFiles),
     { g with openFiles := ⟨freshId g.openFiles, path, ls⟩ :: g.openFiles })

/-- `fclose(fp)`: the stream is open no longer. -/
def fclose (g : Globals) (fp : Nat) : Globals :=
  { g with openFiles := g.openFiles.filter (fun f => f.id != fp) }

/-- The open stream a `FILE*` designates. -/
def stream (g : Globals) (fp : Nat) : Option FILE :=
  g.openFiles.find? (fun f => f.id == fp)

/-- `Py_XINCREF(o)`: one more reference to `o`, nothing for a null pointer. -/
def Py_XINCREF (g : Globals) (o : Option PyObject) : Globals :=
  match o with
  | none => g
  | some b => { g with refcnt := fun x => if x = b then g.refcnt x + 1 else g.refcnt x }

/-- `Py_XDECREF(o)`: one reference to `o` less, nothing for a null pointer. -/
def Py_XDECREF (g : Globals) (o : Option PyObject) : Globals :=
  match o with
  | none => g
  | some b => { g with refcnt := fun x => if x = b then g.refcnt x - 1 else g.refcnt x }

/-- Modelled from the spec: `yylex_destroy`, part of the scanner generated from
`lexer.l`, which is not among the sources.  It "releases any tokenizer-internal
buffers"; nothing else of the scanner is said to change. -/
def yylex_destroy (sc : Scanner) : Scanner :=
  { sc with buffers := false }

/-- The text of the exception raised when a file does not open,
`"Cannot open file '%s'."`. -/
def cannotOpen (filename : String) : String :=
  "Cannot open file \x27" ++ filename ++ "\x27."

/-! ## The module functions -/

/-- `parse` (parser.c, lines 42-98). -/
def parse (E : Env) (g : Globals) (a : ParseArgs) : ParseOutcome :=
  -- 48-50: the locals and their defaults
  let filename := a.filename
  let report_filename := a.report_filename
  let report_firstline := a.report_firstline.getD 0
  -- 56-59: unpacking stores into the globals `builder` and (when given) `yydebug`
  let g := { g with builder := some a.builder, yydebug := a.yydebug.getD g.yydebug }
  -- 62
  let g := Py_XINCREF g g.builder
  -- 65-68
  match fopen E g filename with
  | (none, g) => ⟨.raise .IOError (cannotOpen filename), g, none⟩
  | (some fp, g) =>
    -- 71
    let g := { g with yyin := some fp }
    -- 72-77
    let g := { g with yy_filename :=
                 match report_filename with
                 | some r => some r
                 | none => some filename }
    -- 78
    let g := { g with yy_firstline := report_firstline }
    -- 81
    let seen := g
    let result := (E.yyparse g).1
    let g := (E.yyparse g).2
    -- 84-86: `fp` is not null on this path
    let g := fclose g fp
    -- 87
    let g := { g with scanner := yylex_destroy g.scanner }
    -- 88
    let g := Py_XDECREF g g.builder
    -- 89-90
    let g := { g with builder := none }
    let g := { g with yy_filename := none }
    -- 93-97
    if result ≠ 0 then
      ⟨.raise .RuntimeError "Parsing error.", g, some ⟨seen, result⟩⟩
    else
      ⟨.None, g, some ⟨seen, result⟩⟩

/-- `lexer_init` (parser.c, lines 117-139). -/
def lexer_init (E : Env) (g : Globals) (filename : String) (b : PyObject) :
    PyResult × Globals :=
  -- 123: unpacking stores into the global `builder`
  let g := { g with builder := some b }
  -- 126
  let g := Py_XINCREF g g.builder
  -- 129-132
  match fopen E g filename with
  | (none, g) => (.raise .IOError (cannotOpen filename), g)
  | (some fp, g) =>
    -- 135-136
    let g := { g with yyin := some fp }
    let g := { g with yy_filename := some filename }
    (.None, g)

/-- `lexer_next` (parser.c, lines 142-171).  The tuple is built by
`Py_BuildValue("(sis#O)", ...)`: `s#` takes the first `yyleng` bytes of `yytext`,
and `O` takes a new reference to the object it is given. -/
def lexer_next (E : Env) (g : Globals) : PyResult × Globals :=
  -- 151
  let out := (E.yylex g).1
  let g := (E.yylex g).2
  let token := out.token
  -- 152-155
  if token = 0 then
    (.None, { g with scanner := yylex_destroy g.scanner })
  else
    -- 157-167
    let obj : Option PyObject :=
      if token = E.DATE ∨ token = E.ACCOUNT ∨ token = E.CURRENCY ∨ token = E.STRING ∨
         token = E.NUMBER ∨ token = E.TAG ∨ token = E.LINK then
        some out.pyobj
      else
        none
    -- 169-170
    let tokenName := E.getTokenName token
    (.token tokenName out.first_line (g.scanner.yytext.take g.scanner.yyleng) obj,
     Py_XINCREF g obj)

/-! ## The tokenizer, and the session it reads -/

/-- Modelled from the spec: the Tokenizer (`yylex`, generated from `lexer.l`,
which is not among the sources).  "Input is the byte stream of the currently open
file": it reads the stream `yyin` designates and hands out its next lexical unit,
whose line is "the physical line plus the first-line offset".  "On end of input,
returns the END token ... and releases any internal read buffers": with nothing
left to read (or no open input) it returns 0 and leaves the stream where it is. -/
def yylexModel (g : Globals) : LexOut × Globals :=
  match g.yyin.bind (stream g) with
  | some ⟨id, _, l :: rest⟩ =>
    (⟨l.code, l.value, l.line + g.yy_firstline⟩,
     { g with
         openFiles := g.openFiles.map
           (fun f => if f.id == id then { f with unread := rest } else f),
         scanner := ⟨true, l.text, l.text.length, l.line⟩ })
  | _ => (⟨0, 0, 0⟩, { g with scanner := yylex_destroy g.scanner })

/-- The session state the grammar driver is started on: the bound builder, the
input it reads (which file, and from where), the filename and the first-line
offset. -/
def sessionView (g : Globals) :
    Option PyObject × Option (String × List Lexeme) × Option String × Int :=
  (g.builder, (g.yyin.bind (stream g)).map (fun f => (f.path, f.unread)),
   g.yy_filename, g.yy_firstline)

/-- The grammar driver uses the bound builder and gives it back as it found it:
it does not rebind the global, and the references it takes on the builder while
it runs are released when it returns. -/
def DriverKeepsBuilder (E : Env) : Prop :=
  ∀ g, (E.yyparse g).2.builder = g.builder ∧
    ∀ b, g.builder = some b → (E.yyparse g).2.refcnt b = g.refcnt b

/-- The globals after `n` more calls of `lexer_next`. -/
def pollAgain (E : Env) (n : Nat) (g : Globals) : Globals :=
  (fun x => (lexer_next E x).2)^[n] g

/-- The globals `parse` hands to the grammar driver (line 81) once the file
has opened with content `ls`. -/
def parseBound (g : Globals) (a : ParseArgs) (ls : List Lexeme) : Globals :=
  { builder := some a.builder
    yyin := some (freshId g.openFiles)
    yy_filename := some (a.report_filename.getD a.filename)
    yy_firstline := a.report_firstline.getD 0
    yydebug := a.yydebug.getD g.yydebug
    scanner := g.scanner
    openFiles := ⟨freshId g.openFiles, a.filename, ls⟩ :: g.openFiles
    refcnt := fun x => if x = a.builder then g.refcnt x + 1 else g.refcnt x }

/-- The globals `parse` leaves (lines 84-90) when the driver returned `g` and the
stream opened by the call is `fp`. -/
def parseFinal (g : Globals) (fp : Nat) : Globals :=
  { builder := none
    yyin := g.yyin
    yy_filename := none
    yy_firstline := g.yy_firstline
    yydebug := g.yydebug
    scanner := yylex_destroy g.scanner
    openFiles := g.openFiles.filter (fun f => f.id != fp)
    refcnt := (Py_XDECREF g g.builder).refcnt }

/-- The globals after a call of the tokenizer that found nothing to read. -/
def afterEnd (g : Globals) : Globals :=
  { g with scanner := yylex_destroy g.scanner }

/-! ## A concrete environment -/

/-- A ledger of two tokens: a date and an end of line. -/
def sampleLedger : List Lexeme :=
  [⟨258, by decide, [50, 48], 1, 40⟩, ⟨270, by decide, [42], 1, 41⟩]

/-- A small file system: the ledger, an empty file, nothing else. -/
def sampleContents (path : String) : Option (List Lexeme) :=
  if path = "ledger.beancount" then
    some sampleLedger
  else if path = "empty.beancount" then
    some []
  else
    none

/-- A grammar driver that accepts the empty input only, and fills the scanner's
buffers while it runs. -/
def sampleDriver (g : Globals) : Int × Globals :=
  (match g.yyin.bind (stream g) with
   | some f => if f.unread.isEmpty then 0 else 1
   | none => 2,
   { g with scanner := ⟨true, [], 0, 1⟩ })

/-- An environment on the small file system, with the modelled tokenizer. -/
def sampleEnv : Env where
  contents := sampleContents
  yyparse := sampleDriver
  yylex := yylexModel
  getTokenName := fun t => if t = 258 then "DATE" else "EOL"
  DATE := 258
  ACCOUNT := 259
  CURRENCY := 260
  STRING := 261
  NUMBER := 262
  TAG := 263
  LINK := 264

/-- The state of a fresh process: nothing bound, nothing open. -/
def closed : Globals :=
  ⟨none, none, none, 0, false, ⟨false, [], 0, 0⟩, [], fun _ => 1⟩

/-- An incremental session begun on the ledger, no token taken yet. -/
def ledgerSession : Globals :=
  (lexer_init sampleEnv closed "ledger.beancount" 7).2

/-- An incremental session begun on the empty file. -/
def emptySession : Globals :=
  (lexer_init sampleEnv closed "empty.beancount" 7).2

/-! ## What `parse` and `lexer_init` do on each of their two paths -/

/-- The IOError path of `parse` (lines 56-68), computed. -/
theorem parse_not_opened (E : Env) (g : Globals) (a : ParseArgs)
    (h : E.contents a.filename = none) :
    parse E g a =
      ⟨.raise .IOError (cannotOpen a.filename),
       Py_XINCREF { g with builder := some a.builder, yydebug := a.yydebug.getD g.yydebug }
         (some a.builder),
       none⟩ := by
  simp [parse, fopen, Py_XINCREF, h]

/-- The path of `parse` on which the file opens (lines 56-97), computed. -/
theorem parse_opened (E : Env) (g : Globals) (a : ParseArgs) (ls : List Lexeme)
    (h : E.contents a.filename = some ls) :
    parse E g a =
      ⟨if (E.yyparse (parseBound g a ls)).1 ≠ 0 then
         .raise .RuntimeError "Parsing error." else .None,
       parseFinal (E.yyparse (parseBound g a ls)).2 (freshId g.openFiles),
       some ⟨parseBound g a ls, (E.yyparse (parseBound g a ls)).1⟩⟩ := by
  have hb : (match a.report_filename with
      | some r => some r
      | none => some a.filename) = some (a.report_filename.getD a.filename) := by
    cases a.report_filename <;> rfl
  rcases hr : E.yyparse (parseBound g a ls) with ⟨st, g1⟩
  simp only [parseBound] at hr
  simp only [parse, fopen, h, Py_XINCREF, hb, hr, parseBound]
  obtain ⟨b1, _, _, _, _, _, _, _⟩ := g1
  cases b1 <;> split_ifs <;> simp [parseFinal, fclose, Py_XDECREF]

/-- Every element of a list is at most the maximum folded over it. -/
theorem le_foldr_max (xs : List Nat) (x : Nat) (h : x ∈ xs) : x ≤ xs.foldr max 0 := by
  induction xs with
  | nil => cases h
  | cons y ys ih =>
    simp only [List.foldr_cons]
    rcases List.mem_cons.mp h with rfl | hx
    · exact Nat.le_max_left _ _
    · exact Nat.le_trans (ih hx) (Nat.le_max_right _ _)

/-- No open stream has the identity `fopen` gives to a new one. -/
theorem freshId_ne (fs : List FILE) (f : FILE) (h : f ∈ fs) : f.id ≠ freshId fs := by
  have hle : f.id ≤ (fs.map FILE.id).foldr max 0 :=
    le_foldr_max _ _ (List.mem_map_of_mem FILE.id h)
  unfold freshId
  omega

/-- The path of `lexer_init` on which the file opens (lines 123-138), computed. -/
theorem lexer_init_opened (E : Env) (g : Globals) (filename : String) (b : PyObject)
    (ls : List Lexeme) (h : E.contents filename = some ls) :
    lexer_init E g filename b =
      (.None,
       { builder := some b
         yyin := some (freshId g.openFiles)
         yy_filename := some filename
         yy_firstline := g.yy_firstline
         yydebug := g.yydebug
         scanner := g.scanner
         openFiles := ⟨freshId g.openFiles, filename, ls⟩ :: g.openFiles
         refcnt := fun x => if x = b then g.refcnt x + 1 else g.refcnt x }) := by
  simp only [lexer_init, fopen, h, Py_XINCREF]

/-- The session the grammar driver is started on, read off the arguments. -/
theorem sessionView_parseBound (g : Globals) (a : ParseArgs) (ls : List Lexeme) :
    sessionView (parseBound g a ls) =
      (some a.builder, some (a.filename, ls),
       some (a.report_filename.getD a.filename), a.report_firstline.getD 0) := by
  simp [sessionView, parseBound, stream]

/-! ## What the modelled tokenizer does at the end of its input -/

/-- The modelled tokenizer returns 0 only when it found nothing to read. -/
theorem yylexModel_zero (g : Globals) (h : (yylexModel g).1.token = 0) :
    yylexModel g = (⟨0, 0, 0⟩, afterEnd g) := by
  unfold yylexModel at h ⊢
  split
  · rename_i id p l rest heq
    simp only [heq] at h
    exact absurd h l.nonzero
  · rfl

/-- Once the modelled tokenizer has found nothing to read, it finds nothing again
and changes nothing. -/
theorem yylexModel_afterEnd (g : Globals) (h : (yylexModel g).1.token = 0) :
    yylexModel (afterEnd g) = (⟨0, 0, 0⟩, afterEnd g) := by
  have hsame : (afterEnd g).yyin.bind (stream (afterEnd g)) = g.yyin.bind (stream g) := rfl
  unfold yylexModel at h ⊢
  rw [hsame]
  split
  · rename_i id p l rest heq
    simp only [heq] at h
    exact absurd h l.nonzero
  · rfl

/-- With the modelled tokenizer, `lexer_next` returns `None` only at the end of the
input, and then leaves the globals of `afterEnd`. -/
theorem lexer_next_None (E : Env) (hE : E.yylex = yylexModel) (g : Globals)
    (h : (lexer_next E g).1 = .None) :
    (yylexModel g).1.token = 0 ∧ (lexer_next E g).2 = afterEnd g := by
  by_cases hz : (yylexModel g).1.token = 0
  · refine ⟨hz, ?_⟩
    simp [lexer_next, hE, hz, yylexModel_zero g hz, afterEnd, yylex_destroy]
  · simp [lexer_next, hE, hz] at h

/-- With the modelled tokenizer, `lexer_next` after the end of the input returns
`None` and changes nothing. -/
theorem lexer_next_afterEnd (E : Env) (hE : E.yylex = yylexModel) (g : Globals)
    (h : (yylexModel g).1.token = 0) :
    lexer_next E (afterEnd g) = (.None, afterEnd g) := by
  have h1 := yylexModel_afterEnd g h
  unfold lexer_next
  rw [hE, h1]
  simp [afterEnd, yylex_destroy]

/-! ## Full parse -/

/-- C1: when the path cannot be opened for reading, `parse` fails with an IOError
whose message is `Cannot open file '<path>'.`, the given path between the quotes,
and the grammar driver is not invoked on that call. -/
theorem parse_unopenable_raises_IOError (E : Env) (g : Globals) (a : ParseArgs)
    (h : E.contents a.filename = none) :
    (parse E g a).result =
      .raise .IOError ("Cannot open file \x27" ++ a.filename ++ "\x27.") ∧
    (parse E g a).driver = none := by
  rw [parse_not_opened E g a h]
  exact ⟨rfl, rfl⟩

theorem parse_unopenable_raises_IOError_witness :
    sampleEnv.contents "missing.beancount" = none ∧
    (parse sampleEnv closed ⟨"missing.beancount", 7, none, none, none⟩).result =
      .raise .IOError ("Cannot open file \x27" ++ "missing.beancount" ++ "\x27.") ∧
    (parse sampleEnv closed ⟨"missing.beancount", 7, none, none, none⟩).driver = none :=
  ⟨rfl,
   parse_unopenable_raises_IOError sampleEnv closed
     ⟨"missing.beancount", 7, none, none, none⟩ rfl⟩

/-- C2: when the file opens, `parse` invokes the grammar driver once and returns
`None` exactly when the driver's status is 0; on any other status it raises
RuntimeError "Parsing error.", whatever `report_filename`, `report_firstline`
and `yydebug` are. -/
theorem parse_result_follows_driver_status (E : Env) (g : Globals) (a : ParseArgs)
    (ls : List Lexeme) (h : E.contents a.filename = some ls) :
    ∃ c, (parse E g a).driver = some c ∧
      c.status = (E.yyparse c.seen).1 ∧
      ((parse E g a).result = .None ↔ c.status = 0) ∧
      (c.status ≠ 0 → (parse E g a).result = .raise .RuntimeError "Parsing error.") := by
  rw [parse_opened E g a ls h]
  refine ⟨_, rfl, rfl, ?_, ?_⟩
  · by_cases hs : (E.yyparse (parseBound g a ls)).1 = 0 <;> simp [hs]
  · intro hs
    simp only [ne_eq] at hs
    simp [hs]

theorem parse_result_follows_driver_status_witness :
    sampleEnv.contents "ledger.beancount" = some sampleLedger ∧
    ∃ c, (parse sampleEnv closed ⟨"ledger.beancount", 7, some "main", some 10, some true⟩).driver
        = some c ∧
      c.status = (sampleEnv.yyparse c.seen).1 ∧
      ((parse sampleEnv closed ⟨"ledger.beancount", 7, some "main", some 10, some true⟩).result
        = .None ↔ c.status = 0) ∧
      (c.status ≠ 0 →
        (parse sampleEnv closed ⟨"ledger.beancount", 7, some "main", some 10, some true⟩).result
          = .raise .RuntimeError "Parsing error.") :=
  ⟨rfl,
   parse_result_follows_driver_status sampleEnv closed
     ⟨"ledger.beancount", 7, some "main", some 10, some true⟩ sampleLedger rfl⟩

/-- C3: when the file opens, the grammar driver is started with `yy_filename`
equal to `report_filename` if one was given and to the path otherwise, and with
`yy_firstline` equal to `report_firstline` if one was given and to 0 otherwise. -/
theorem parse_binds_filename_and_firstline (E : Env) (g : Globals) (a : ParseArgs)
    (ls : List Lexeme) (h : E.contents a.filename = some ls) :
    ∃ c, (parse E g a).driver = some c ∧
      c.seen.yy_filename =
        some (match a.report_filename with
              | some r => r
              | none => a.filename) ∧
      c.seen.yy_firstline =
        (match a.report_firstline with
         | some k => k
         | none => 0) := by
  rw [parse_opened E g a ls h]
  obtain ⟨fn, b, rf, rl, dbg⟩ := a
  refine ⟨_, rfl, ?_, ?_⟩
  · cases rf <;> rfl
  · cases rl <;> rfl

theorem parse_binds_filename_and_firstline_witness :
    sampleEnv.contents "empty.beancount" = some [] ∧
    ∃ c, (parse sampleEnv closed ⟨"empty.beancount", 7, some "main", none, none⟩).driver
        = some c ∧
      c.seen.yy_filename =
        some (match (some "main" : Option String) with
              | some r => r
              | none => "empty.beancount") ∧
      c.seen.yy_firstline =
        (match (none : Option Int) with
         | some k => k
         | none => 0) :=
  ⟨rfl,
   parse_binds_filename_and_firstline sampleEnv closed
     ⟨"empty.beancount", 7, some "main", none, none⟩ [] rfl⟩

/-- C4: when the file opens, and the grammar driver gives the builder back as it
found it, then whatever status the driver returns, when `parse` returns the
stream it opened is closed, the scanner's buffers are released, the reference
taken on the builder is given back (its count is what it was before the call),
and the globals `builder` and `yy_filename` are null. -/
theorem parse_releases_session (E : Env) (g : Globals) (a : ParseArgs)
    (ls : List Lexeme) (h : E.contents a.filename = some ls)
    (hd : DriverKeepsBuilder E) :
    ∃ c fp, (parse E g a).driver = some c ∧
      c.seen.yyin = some fp ∧
      (∃ f, stream c.seen fp = some f ∧ f.path = a.filename) ∧
      (∀ f ∈ (parse E g a).globals.openFiles, f.id ≠ fp) ∧
      (parse E g a).globals.scanner.buffers = false ∧
      (parse E g a).globals.refcnt a.builder = g.refcnt a.builder ∧
      (parse E g a).globals.builder = none ∧
      (parse E g a).globals.yy_filename = none := by
  rw [parse_opened E g a ls h]
  obtain ⟨hb, hc⟩ := hd (parseBound g a ls)
  refine ⟨_, freshId g.openFiles, rfl, rfl,
    ⟨⟨freshId g.openFiles, a.filename, ls⟩, ?_, rfl⟩, ?_, rfl, ?_, rfl, rfl⟩
  · simp [stream, parseBound]
  · intro f hf
    simp only [parseFinal, List.mem_filter, bne_iff_ne] at hf
    exact hf.2
  · have hb1 : (E.yyparse (parseBound g a ls)).2.builder = some a.builder := hb
    have hc1 : (E.yyparse (parseBound g a ls)).2.refcnt a.builder
        = g.refcnt a.builder + 1 := by
      rw [hc a.builder rfl]
      simp [parseBound]
    show (Py_XDECREF _ _).refcnt a.builder = _
    rw [hb1]
    simp only [Py_XDECREF, if_true]
    rw [hc1]
    omega

theorem parse_releases_session_witness :
    sampleEnv.contents "ledger.beancount" = some sampleLedger ∧
    DriverKeepsBuilder sampleEnv ∧
    ∃ c fp, (parse sampleEnv closed ⟨"ledger.beancount", 7, none, none, none⟩).driver = some c ∧
      c.seen.yyin = some fp ∧
      (∃ f, stream c.seen fp = some f ∧ f.path = "ledger.beancount") ∧
      (∀ f ∈ (parse sampleEnv closed ⟨"ledger.beancount", 7, none, none, none⟩).globals.openFiles,
        f.id ≠ fp) ∧
      (parse sampleEnv closed ⟨"ledger.beancount", 7, none, none, none⟩).globals.scanner.buffers
        = false ∧
      (parse sampleEnv closed ⟨"ledger.beancount", 7, none, none, none⟩).globals.refcnt 7
        = closed.refcnt 7 ∧
      (parse sampleEnv closed ⟨"ledger.beancount", 7, none, none, none⟩).globals.builder = none ∧
      (parse sampleEnv closed ⟨"ledger.beancount", 7, none, none, none⟩).globals.yy_filename
        = none :=
  ⟨rfl, fun _ => ⟨rfl, fun _ _ => rfl⟩,
   parse_releases_session sampleEnv closed ⟨"ledger.beancount", 7, none, none, none⟩
     sampleLedger rfl (fun _ => ⟨rfl, fun _ _ => rfl⟩)⟩

/-- C5: `parse` on a path that does not open, started with nothing bound: it
raises the IOError and returns with the global `builder` still bound to the
builder it was given and the reference taken on it not given back; no stream is
open and the grammar driver has not run. -/
theorem parse_IOError_leaves_builder_bound :
    closed.builder = none ∧
    (parse sampleEnv closed ⟨"missing.beancount", 7, none, none, none⟩).result
      = .raise .IOError "Cannot open file \x27missing.beancount\x27." ∧
    (parse sampleEnv closed ⟨"missing.beancount", 7, none, none, none⟩).driver = none ∧
    (parse sampleEnv closed ⟨"missing.beancount", 7, none, none, none⟩).globals.openFiles = [] ∧
    (parse sampleEnv closed ⟨"missing.beancount", 7, none, none, none⟩).globals.builder
      = some 7 ∧
    (parse sampleEnv closed ⟨"missing.beancount", 7, none, none, none⟩).globals.refcnt 7
      = closed.refcnt 7 + 1 := by
  rw [parse_not_opened sampleEnv closed ⟨"missing.beancount", 7, none, none, none⟩ rfl]
  exact ⟨rfl, by decide, rfl, rfl, rfl, by decide⟩

/-! ## Incremental stepping -/

/-- C6: for every token the tokenizer yields (a token code other than 0),
`lexer_next` returns the tuple of the code's name, `yylloc.first_line`, the first
`yyleng` bytes of `yytext` and a literal; the literal is `yylval.pyobj` when the
code is one of DATE, ACCOUNT, CURRENCY, STRING, NUMBER, TAG, LINK, and `None`
for every other code. -/
theorem lexer_next_token_tuple (E : Env) (g : Globals) (h : (E.yylex g).1.token ≠ 0) :
    ∃ lit,
      (lexer_next E g).1 =
        .token (E.getTokenName (E.yylex g).1.token) (E.yylex g).1.first_line
          ((E.yylex g).2.scanner.yytext.take (E.yylex g).2.scanner.yyleng) lit ∧
      ((E.yylex g).2.scanner.yyleng ≤ (E.yylex g).2.scanner.yytext.length →
        ((E.yylex g).2.scanner.yytext.take (E.yylex g).2.scanner.yyleng).length
          = (E.yylex g).2.scanner.yyleng) ∧
      (lit = some (E.yylex g).1.pyobj ↔
        ((E.yylex g).1.token = E.DATE ∨ (E.yylex g).1.token = E.ACCOUNT ∨
         (E.yylex g).1.token = E.CURRENCY ∨ (E.yylex g).1.token = E.STRING ∨
         (E.yylex g).1.token = E.NUMBER ∨ (E.yylex g).1.token = E.TAG ∨
         (E.yylex g).1.token = E.LINK)) ∧
      (lit = none ↔
        ¬ ((E.yylex g).1.token = E.DATE ∨ (E.yylex g).1.token = E.ACCOUNT ∨
           (E.yylex g).1.token = E.CURRENCY ∨ (E.yylex g).1.token = E.STRING ∨
           (E.yylex g).1.token = E.NUMBER ∨ (E.yylex g).1.token = E.TAG ∨
           (E.yylex g).1.token = E.LINK)) := by
  by_cases hp : ((E.yylex g).1.token = E.DATE ∨ (E.yylex g).1.token = E.ACCOUNT ∨
      (E.yylex g).1.token = E.CURRENCY ∨ (E.yylex g).1.token = E.STRING ∨
      (E.yylex g).1.token = E.NUMBER ∨ (E.yylex g).1.token = E.TAG ∨
      (E.yylex g).1.token = E.LINK)
  · refine ⟨some (E.yylex g).1.pyobj, ?_, ?_, ?_, ?_⟩
    · simp only [lexer_next, if_neg h, if_pos hp]
    · intro hle
      exact List.length_take_of_le hle
    · exact ⟨fun _ => hp, fun _ => rfl⟩
    · exact ⟨fun hn => Option.noConfusion hn, fun hn => absurd hp hn⟩
  · refine ⟨none, ?_, ?_, ?_, ?_⟩
    · simp only [lexer_next, if_neg h, if_neg hp]
    · intro hle
      exact List.length_take_of_le hle
    · exact ⟨fun hn => Option.noConfusion hn, fun hq => absurd hq hp⟩
    · exact ⟨fun _ => hp, fun _ => rfl⟩

theorem lexer_next_token_tuple_witness :
    (sampleEnv.yylex ledgerSession).1.token ≠ 0 ∧
    (lexer_next sampleEnv ledgerSession).1 = .token "DATE" 1 [50, 48] (some 40) ∧
    (lexer_next sampleEnv (lexer_next sampleEnv ledgerSession).2).1
      = .token "EOL" 1 [42] none ∧
    ∃ lit,
      (lexer_next sampleEnv ledgerSession).1 =
        .token (sampleEnv.getTokenName (sampleEnv.yylex ledgerSession).1.token)
          (sampleEnv.yylex ledgerSession).1.first_line
          ((sampleEnv.yylex ledgerSession).2.scanner.yytext.take
            (sampleEnv.yylex ledgerSession).2.scanner.yyleng) lit ∧
      ((sampleEnv.yylex ledgerSession).2.scanner.yyleng
          ≤ (sampleEnv.yylex ledgerSession).2.scanner.yytext.length →
        ((sampleEnv.yylex ledgerSession).2.scanner.yytext.take
          (sampleEnv.yylex ledgerSession).2.scanner.yyleng).length
          = (sampleEnv.yylex ledgerSession).2.scanner.yyleng) ∧
      (lit = some (sampleEnv.yylex ledgerSession).1.pyobj ↔
        ((sampleEnv.yylex ledgerSession).1.token = sampleEnv.DATE ∨
         (sampleEnv.yylex ledgerSession).1.token = sampleEnv.ACCOUNT ∨
         (sampleEnv.yylex ledgerSession).1.token = sampleEnv.CURRENCY ∨
         (sampleEnv.yylex ledgerSession).1.token = sampleEnv.STRING ∨
         (sampleEnv.yylex ledgerSession).1.token = sampleEnv.NUMBER ∨
         (sampleEnv.yylex ledgerSession).1.token = sampleEnv.TAG ∨
         (sampleEnv.yylex ledgerSession).1.token = sampleEnv.LINK)) ∧
      (lit = none ↔
        ¬ ((sampleEnv.yylex ledgerSession).1.token = sampleEnv.DATE ∨
           (sampleEnv.yylex ledgerSession).1.token = sampleEnv.ACCOUNT ∨
           (sampleEnv.yylex ledgerSession).1.token = sampleEnv.CURRENCY ∨
           (sampleEnv.yylex ledgerSession).1.token = sampleEnv.STRING ∨
           (sampleEnv.yylex ledgerSession).1.token = sampleEnv.NUMBER ∨
           (sampleEnv.yylex ledgerSession).1.token = sampleEnv.TAG ∨
           (sampleEnv.yylex ledgerSession).1.token = sampleEnv.LINK)) :=
  ⟨by decide, by decide, by decide,
   lexer_next_token_tuple sampleEnv ledgerSession (by decide)⟩

/-- C7: with the modelled tokenizer, once `lexer_next` has returned `None`, each
later call returns `None` again, raising nothing, and leaves the globals as the
first `None` left them: no stream is read further and nothing else changes. -/
theorem lexer_next_after_End_is_noop (E : Env) (hE : E.yylex = yylexModel) (g : Globals)
    (hend : (lexer_next E g).1 = .None) (n : Nat) :
    lexer_next E (pollAgain E n (lexer_next E g).2) = (.None, (lexer_next E g).2) := by
  obtain ⟨hz, hg⟩ := lexer_next_None E hE g hend
  rw [hg]
  have hstep := lexer_next_afterEnd E hE g hz
  have hfix : ∀ k, pollAgain E k (afterEnd g) = afterEnd g := by
    intro k
    induction k with
    | zero => rfl
    | succ k ih =>
      unfold pollAgain at ih ⊢
      rw [Function.iterate_succ_apply, hstep]
      exact ih
  rw [hfix n]
  exact hstep

theorem lexer_next_after_End_is_noop_witness :
    sampleEnv.yylex = yylexModel ∧
    (lexer_next sampleEnv (pollAgain sampleEnv 2 ledgerSession)).1 = .None ∧
    lexer_next sampleEnv
        (pollAgain sampleEnv 3 (lexer_next sampleEnv (pollAgain sampleEnv 2 ledgerSession)).2)
      = (.None, (lexer_next sampleEnv (pollAgain sampleEnv 2 ledgerSession)).2) :=
  ⟨rfl, by decide,
   lexer_next_after_End_is_noop sampleEnv rfl (pollAgain sampleEnv 2 ledgerSession)
     (by decide) 3⟩

/-- C8, as stated, fails: with a session open on the ledger and its two tokens
still unread, a second `lexer_init` on the empty file returns `None` and leaves
`yyin`, `yy_filename` and `builder` bound to the second call's file and builder. -/
theorem lexer_init_on_open_session_does_not_fail :
    (lexer_init sampleEnv closed "ledger.beancount" 7).1 = .None ∧
    ledgerSession.builder = some 7 ∧
    ledgerSession.yy_filename = some "ledger.beancount" ∧
    (ledgerSession.yyin.bind (stream ledgerSession)).map FILE.path
      = some "ledger.beancount" ∧
    (ledgerSession.yyin.bind (stream ledgerSession)).map (fun f => f.unread.length)
      = some 2 ∧
    (lexer_init sampleEnv ledgerSession "empty.beancount" 8).1 = .None ∧
    (lexer_init sampleEnv ledgerSession "empty.beancount" 8).2.builder = some 8 ∧
    (lexer_init sampleEnv ledgerSession "empty.beancount" 8).2.yy_filename
      = some "empty.beancount" ∧
    ((lexer_init sampleEnv ledgerSession "empty.beancount" 8).2.yyin.bind
        (stream (lexer_init sampleEnv ledgerSession "empty.beancount" 8).2)).map FILE.path
      = some "empty.beancount" := by
  refine ⟨by decide, rfl, by decide, by decide, by decide, by decide, rfl, by decide,
    by decide⟩

/-- C8, amended: `lexer_init` does not look at the state it is called in, an open
session included: whenever the file opens it returns `None`, having opened the
file as a new stream and bound `yyin` to it, `yy_filename` to the path and
`builder` to the builder of this call. -/
theorem lexer_init_rebinds_session (E : Env) (g : Globals) (filename : String)
    (b : PyObject) (ls : List Lexeme) (h : E.contents filename = some ls) :
    (lexer_init E g filename b).1 = .None ∧
    (lexer_init E g filename b).2.builder = some b ∧
    (lexer_init E g filename b).2.yy_filename = some filename ∧
    ∃ fp, (lexer_init E g filename b).2.yyin = some fp ∧
      (∀ f ∈ g.openFiles, f.id ≠ fp) ∧
      stream (lexer_init E g filename b).2 fp = some ⟨fp, filename, ls⟩ := by
  rw [lexer_init_opened E g filename b ls h]
  refine ⟨rfl, rfl, rfl, freshId g.openFiles, rfl, ?_, ?_⟩
  · intro f hf
    exact freshId_ne g.openFiles f hf
  · simp [stream]

theorem lexer_init_rebinds_session_witness :
    sampleEnv.contents "empty.beancount" = some [] ∧
    (lexer_init sampleEnv ledgerSession "empty.beancount" 8).1 = .None ∧
    (lexer_init sampleEnv ledgerSession "empty.beancount" 8).2.builder = some 8 ∧
    (lexer_init sampleEnv ledgerSession "empty.beancount" 8).2.yy_filename
      = some "empty.beancount" ∧
    ∃ fp, (lexer_init sampleEnv ledgerSession "empty.beancount" 8).2.yyin = some fp ∧
      (∀ f ∈ ledgerSession.openFiles, f.id ≠ fp) ∧
      stream (lexer_init sampleEnv ledgerSession "empty.beancount" 8).2 fp
        = some ⟨fp, "empty.beancount", []⟩ :=
  ⟨rfl, lexer_init_rebinds_session sampleEnv ledgerSession "empty.beancount" 8 [] rfl⟩

/-- C9: an incremental session on the empty file: `lexer_init` succeeds, the first
`lexer_next` returns `None`, and afterwards only the scanner's buffers are
released; the stream is still open and still bound as `yyin`, `builder` and
`yy_filename` are still bound and the reference on the builder is still held.
And a `lexer_init` that fails with IOError leaves `builder` bound to its
argument with the reference held. -/
theorem lexer_next_End_leaves_session_open :
    (lexer_init sampleEnv closed "empty.beancount" 7).1 = .None ∧
    (lexer_next sampleEnv emptySession).1 = .None ∧
    (lexer_next sampleEnv emptySession).2.scanner.buffers = false ∧
    (lexer_next sampleEnv emptySession).2.openFiles.map FILE.path = ["empty.beancount"] ∧
    ((lexer_next sampleEnv emptySession).2.yyin.bind
        (stream (lexer_next sampleEnv emptySession).2)).map FILE.path
      = some "empty.beancount" ∧
    (lexer_next sampleEnv emptySession).2.builder = some 7 ∧
    (lexer_next sampleEnv emptySession).2.yy_filename = some "empty.beancount" ∧
    (lexer_next sampleEnv emptySession).2.refcnt 7 = closed.refcnt 7 + 1 ∧
    (lexer_init sampleEnv closed "missing.beancount" 7).1
      = .raise .IOError "Cannot open file \x27missing.beancount\x27." ∧
    (lexer_init sampleEnv closed "missing.beancount" 7).2.builder = some 7 ∧
    (lexer_init sampleEnv closed "missing.beancount" 7).2.refcnt 7 = closed.refcnt 7 + 1 := by
  refine ⟨by decide, by decide, rfl, by decide, by decide, rfl, by decide, by decide,
    by decide, rfl, by decide⟩

/-! ## Two parses in sequence -/

/-- C10: after any first `parse` call (any arguments, any file, any behaviour of
the grammar driver), a second call whose file opens starts the grammar driver on
a session state (builder, input, filename, first-line offset) that is fixed by
the second call's arguments and the file they name, and equals the one the
driver would be started on had the first call not been made. -/
theorem parse_twice_no_interference (E : Env) (g : Globals) (a1 a2 : ParseArgs)
    (ls : List Lexeme) (h : E.contents a2.filename = some ls) :
    ∃ c c0, (parse E (parse E g a1).globals a2).driver = some c ∧
      (parse E g a2).driver = some c0 ∧
      sessionView c.seen = sessionView c0.seen ∧
      sessionView c.seen =
        (some a2.builder, some (a2.filename, ls),
         some (match a2.report_filename with
               | some r => r
               | none => a2.filename),
         match a2.report_firstline with
         | some k => k
         | none => 0) := by
  rw [parse_opened E (parse E g a1).globals a2 ls h, parse_opened E g a2 ls h]
  refine ⟨_, _, rfl, rfl, ?_, ?_⟩
  · simp only [sessionView_parseBound]
  · simp only [sessionView_parseBound]
    obtain ⟨fn, b, rf, rl, dbg⟩ := a2
    cases rf <;> cases rl <;> rfl

theorem parse_twice_no_interference_witness :
    sampleEnv.contents "ledger.beancount" = some sampleLedger ∧
    ∃ c c0,
      (parse sampleEnv
          (parse sampleEnv closed ⟨"missing.beancount", 7, some "old", some 5, some true⟩).globals
          ⟨"ledger.beancount", 8, none, none, none⟩).driver = some c ∧
      (parse sampleEnv closed ⟨"ledger.beancount", 8, none, none, none⟩).driver = some c0 ∧
      sessionView c.seen = sessionView c0.seen ∧
      sessionView c.seen =
        (some 8, some ("ledger.beancount", sampleLedger),
         some (match (none : Option String) with
               | some r => r
               | none => "ledger.beancount"),
         match (none : Option Int) with
         | some k => k
         | none => 0) :=
  ⟨rfl,
   parse_twice_no_interference sampleEnv closed
     ⟨"missing.beancount", 7, some "old", some 5, some true⟩
     ⟨"ledger.beancount", 8, none, none, none⟩ sampleLedger rfl⟩

end Beancount
